import Mathlib

/-
Shallow embedding of the MTB-UNI v4 firmware application layer
(src/src/main.c, current revision; the earlier revision of the same file
is embedded separately where a claim refers to it).

The embedding models the command dispatcher `mtbbus_received`, the
change-notification tracker inside the MODULE_INQUIRY case, the bus-speed
autodetect state machine, the button state machine and the response-staging
helpers.  Module-global C variables become fields of `ModState`; calls into
external collaborators (transport send, output driver, reboot primitive)
become entries of an event trace, so that response/effect ordering is
observable.
-/

namespace MtbUni4

/-
Numeric protocol constants.  Modelled from the spec: the numeric values of
the MTBbus command codes, diagnostic indices and error codes live in
lib/mtbbus.h, which is outside src/; the dispatcher only compares these
codes for equality, so only their distinctness matters.  The speed constant
MTBBUS_SPEED_38400 = 0x01 is fixed by the code comment at main.c line 700
("relies on first speed 38400 kBd = 0x01").
-/

def MTBBUS_CMD_MOSI_MODULE_INQUIRY : Nat := 0x01
def MTBBUS_CMD_MOSI_INFO_REQ : Nat := 0x02
def MTBBUS_CMD_MOSI_SET_CONFIG : Nat := 0x03
def MTBBUS_CMD_MOSI_GET_CONFIG : Nat := 0x04
def MTBBUS_CMD_MOSI_BEACON : Nat := 0x05
def MTBBUS_CMD_MOSI_GET_INPUT : Nat := 0x10
def MTBBUS_CMD_MOSI_SET_OUTPUT : Nat := 0x11
def MTBBUS_CMD_MOSI_RESET_OUTPUTS : Nat := 0x12
def MTBBUS_CMD_MOSI_CHANGE_ADDR : Nat := 0x20
def MTBBUS_CMD_MOSI_CHANGE_SPEED : Nat := 0xE0
def MTBBUS_CMD_MOSI_FWUPGD_REQUEST : Nat := 0xF0
def MTBBUS_CMD_MOSI_REBOOT : Nat := 0xE1
def MTBBUS_CMD_MOSI_DIAG_VALUE_REQ : Nat := 0xD0

def MTBBUS_CMD_MISO_ACK : Nat := 0x01
def MTBBUS_CMD_MISO_ERROR : Nat := 0x02
def MTBBUS_CMD_MISO_MODULE_INFO : Nat := 0x03
def MTBBUS_CMD_MISO_MODULE_CONFIG : Nat := 0x04
def MTBBUS_CMD_MISO_INPUT_CHANGED : Nat := 0x10
def MTBBUS_CMD_MISO_INPUT_STATE : Nat := 0x11
def MTBBUS_CMD_MISO_OUTPUT_SET : Nat := 0x12
def MTBBUS_CMD_MISO_DIAG_VALUE : Nat := 0xD0

def MTBBUS_ERROR_UNKNOWN_COMMAND : Nat := 0x01
def MTBBUS_ERROR_UNSUPPORTED_COMMAND : Nat := 0x02

def MTBBUS_DV_VERSION : Nat := 0
def MTBBUS_DV_STATE : Nat := 1
def MTBBUS_DV_UPTIME : Nat := 2
def MTBBUS_DV_WARNINGS : Nat := 3
def MTBBUS_DV_VMCU : Nat := 10
def MTBBUS_DV_MTBBUS_RECEIVED : Nat := 16
def MTBBUS_DV_MTBBUS_BAD_CRC : Nat := 17
def MTBBUS_DV_MTBBUS_SENT : Nat := 18
def MTBBUS_DV_MTBBUS_UNSENT : Nat := 19

/-- Modelled from the spec: the lowest MTBbus speed code, 38400 Bd = 0x01
(main.c line 700 comment). -/
def MTBBUS_SPEED_38400 : Nat := 1

/-- Modelled from the spec: the highest MTBbus speed code.  The speed
enumeration lives in lib/mtbbus.h outside src/; the spec (section 3,
BusSpeed) describes an ordered contiguous enumeration of four discrete
rates starting at 38400 Bd = 0x01. -/
def MTBBUS_SPEED_MAX : Nat := 4

/-- Modelled from the spec: NO_OUTPUTS from config.h (outside src/).  The
spec requires output-count + input-count/2 = 24 config bytes and the code
stages a 25-byte GET_CONFIG response, fixing 16 outputs and 16 inputs. -/
def NO_OUTPUTS : Nat := 16

/-- Modelled from the spec: NO_INPUTS from config.h (outside src/). -/
def NO_INPUTS : Nat := 16

/-- Modelled from the spec: module-type constant from config.h. -/
def CONFIG_MODULE_TYPE : Nat := 0x15

/-- Modelled from the spec: firmware/protocol version constants from
config.h (outside src/); their values do not affect any claim. -/
def CONFIG_FW_MAJOR : Nat := 1
def CONFIG_FW_MINOR : Nat := 0
def CONFIG_PROTO_MAJOR : Nat := 4
def CONFIG_PROTO_MINOR : Nat := 0

def LED_GR_ON : Nat := 5
def BTN_PRESS_1S : Nat := 100
def MTBBUS_AUTO_SPEED_TIMEOUT : Nat := 20
def INIT_TIME : Nat := 50
def MTBBUS_TIMEOUT_MAX : Nat := 100

/-- The module-global state of main.c that the modelled functions read or
write.  uint8/uint16/uint32 variables become Nat; C bool becomes Bool.
`mtbbus_speed` is the transport library speed variable (set by
mtbbus_set_speed, read by mtbbus_auto_speed_received);
`mtbbus_on_sent_bootloader` records whether mtbbus_on_sent has been pointed
at goto_bootloader. -/
structure ModState where
  initialized : Bool
  error_addr_zero : Bool
  error_bad_polarity : Bool
  led_gr_counter : Nat
  beacon : Bool
  last_input_changed : Bool
  last_diag_changed : Bool
  first_scan : Bool
  inputs_logic_state : Nat
  inputs_old : Nat
  mtbbus_warn_flags : Nat
  mtbbus_warn_flags_old : Nat
  config_safe_state : List Nat
  config_inputs_delay : List Nat
  config_mtbbus_speed : Nat
  config_write : Bool
  mtbbus_speed : Nat
  mtbbus_timeout : Nat
  mtbbus_auto_speed_in_progress : Bool
  mtbbus_auto_speed_timer : Nat
  mtbbus_auto_speed_last : Nat
  mtbbus_on_sent_bootloader : Bool
  outputs_changed_when_setting_scom : Bool
  bootloader_version : Nat
  uptime_seconds : Nat
  vcc_voltage : Nat
  diag_received : Nat
  diag_bad_crc : Nat
  diag_sent : Nat
  diag_unsent : Nat
  deriving Repr, DecidableEq

/-- Observable calls into external collaborators.  `sendFrame bytes` is a
response staged into mtbbus_output_buf and handed to the transport by
mtbbus_send_buf_autolen (bytes include the leading length byte); the other
constructors are the side-effecting collaborator calls. -/
inductive Event where
  | sendFrame (frame : List Nat)
  | outputsSetZipped (data : List Nat)
  | outputsSetFull (state : List Nat)
  | setSpeed (speed : Nat)
  | bootFwupgd
  | gotoBootloader
  deriving Repr, DecidableEq

/-- True on response frames handed to the transport. -/
def isResponse : Event → Bool
  | .sendFrame _ => true
  | _ => false

/-- True on side-effecting collaborator invocations. -/
def isEffect : Event → Bool
  | .sendFrame _ => false
  | _ => true

/-- True when some effect is invoked before any response has been staged. -/
def effectPrecedesResponse (evts : List Event) : Bool :=
  (evts.takeWhile fun e => !(isResponse e)).any isEffect

/-- mtbbus_send_ack (current revision, main.c lines 656-660): stages the
one-byte ACK frame unconditionally. -/
def ackFrame : List Nat := [1, MTBBUS_CMD_MISO_ACK]

/-- mtbbus_send_inputs (current revision, main.c lines 662-668): the staged
input-state frame for a 16-bit input snapshot. -/
def inputsFrame (message_code inputs : Nat) : List Nat :=
  [3, message_code, inputs / 256 % 256, inputs % 256]

/-- mtbbus_send_error (main.c lines 670-675). -/
def errorFrame (code : Nat) : List Nat := [2, MTBBUS_CMD_MISO_ERROR, code]

/-- Little-endian byte expansion, as produced by MEMCPY_FROM_VAR on the
little-endian AVR target. -/
def bytesLE (k n : Nat) : List Nat := (List.range k).map fun i => n / 256 ^ i % 256

/-- send_diag_value (main.c lines 728-786): stages the DIAG_VALUE frame for
index i; the MTBBUS_DV_WARNINGS case and the default case also latch
mtbbus_warn_flags_old (acknowledged-by-read). -/
def send_diag_value (s : ModState) (i : Nat) : ModState × List Event :=
  if i = MTBBUS_DV_VERSION then
    (s, [.sendFrame [3, MTBBUS_CMD_MISO_DIAG_VALUE, i, 0x10]])
  else if i = MTBBUS_DV_STATE then
    (s, [.sendFrame [3, MTBBUS_CMD_MISO_DIAG_VALUE, i,
          if 0 < s.mtbbus_warn_flags then 2 else 0]])
  else if i = MTBBUS_DV_UPTIME then
    (s, [.sendFrame ([6, MTBBUS_CMD_MISO_DIAG_VALUE, i] ++ bytesLE 4 s.uptime_seconds)])
  else if i = MTBBUS_DV_WARNINGS then
    ({ s with mtbbus_warn_flags_old := s.mtbbus_warn_flags },
     [.sendFrame [3, MTBBUS_CMD_MISO_DIAG_VALUE, i, s.mtbbus_warn_flags]])
  else if i = MTBBUS_DV_VMCU then
    (s, [.sendFrame [4, MTBBUS_CMD_MISO_DIAG_VALUE, i,
          s.vcc_voltage / 256 % 256, s.vcc_voltage % 256]])
  else if i = MTBBUS_DV_MTBBUS_RECEIVED then
    (s, [.sendFrame ([6, MTBBUS_CMD_MISO_DIAG_VALUE, i] ++ bytesLE 4 s.diag_received)])
  else if i = MTBBUS_DV_MTBBUS_BAD_CRC then
    (s, [.sendFrame ([6, MTBBUS_CMD_MISO_DIAG_VALUE, i] ++ bytesLE 4 s.diag_bad_crc)])
  else if i = MTBBUS_DV_MTBBUS_SENT then
    (s, [.sendFrame ([6, MTBBUS_CMD_MISO_DIAG_VALUE, i] ++ bytesLE 4 s.diag_sent)])
  else if i = MTBBUS_DV_MTBBUS_UNSENT then
    (s, [.sendFrame ([6, MTBBUS_CMD_MISO_DIAG_VALUE, i] ++ bytesLE 4 s.diag_unsent)])
  else
    ({ s with mtbbus_warn_flags_old := s.mtbbus_warn_flags },
     [.sendFrame [2, MTBBUS_CMD_MISO_DIAG_VALUE, i]])

/-- The shared INVALID_MSG / default target of the switch (main.c lines
644-648): the unknown-command ERROR frame when unicast, nothing when
broadcast. -/
def invalid_msg (s : ModState) (broadcast : Bool) : ModState × List Event :=
  if broadcast then (s, [])
  else (s, [.sendFrame (errorFrame MTBBUS_ERROR_UNKNOWN_COMMAND)])

/-- The MODULE_INQUIRY change-notification tracker (main.c lines 508-532),
already past the unicast and payload-length guard; last_ok is bit0 of the
first payload byte. -/
def module_inquiry (s : ModState) (last_ok : Bool) : ModState × List Event :=
  if s.inputs_logic_state ≠ s.inputs_old ∨ (s.last_input_changed ∧ last_ok = false)
      ∨ s.first_scan then
    ({ s with last_input_changed := true, first_scan := false,
              inputs_old := s.inputs_logic_state },
     [.sendFrame (inputsFrame MTBBUS_CMD_MISO_INPUT_CHANGED s.inputs_logic_state)])
  else if s.mtbbus_warn_flags ≠ s.mtbbus_warn_flags_old
      ∨ (s.last_diag_changed ∧ last_ok = false) then
    send_diag_value
      { s with last_input_changed := false, last_diag_changed := true,
               mtbbus_warn_flags_old := s.mtbbus_warn_flags }
      MTBBUS_DV_STATE
  else
    ({ s with last_input_changed := false }, [.sendFrame ackFrame])

/-- The case labels of the command switch in mtbbus_received. -/
inductive Cmd where
  | moduleInquiry
  | infoReq
  | setConfig
  | getConfig
  | beacon
  | getInput
  | setOutput
  | resetOutputs
  | changeAddr
  | changeSpeed
  | fwupgd
  | reboot
  | diagValueReq
  | other
  deriving Repr, DecidableEq

/-- Selection of the switch case from the command code. -/
def decodeCmd (command_code : Nat) : Cmd :=
  if command_code = MTBBUS_CMD_MOSI_MODULE_INQUIRY then .moduleInquiry
  else if command_code = MTBBUS_CMD_MOSI_INFO_REQ then .infoReq
  else if command_code = MTBBUS_CMD_MOSI_SET_CONFIG then .setConfig
  else if command_code = MTBBUS_CMD_MOSI_GET_CONFIG then .getConfig
  else if command_code = MTBBUS_CMD_MOSI_BEACON then .beacon
  else if command_code = MTBBUS_CMD_MOSI_GET_INPUT then .getInput
  else if command_code = MTBBUS_CMD_MOSI_SET_OUTPUT then .setOutput
  else if command_code = MTBBUS_CMD_MOSI_RESET_OUTPUTS then .resetOutputs
  else if command_code = MTBBUS_CMD_MOSI_CHANGE_ADDR then .changeAddr
  else if command_code = MTBBUS_CMD_MOSI_CHANGE_SPEED then .changeSpeed
  else if command_code = MTBBUS_CMD_MOSI_FWUPGD_REQUEST then .fwupgd
  else if command_code = MTBBUS_CMD_MOSI_REBOOT then .reboot
  else if command_code = MTBBUS_CMD_MOSI_DIAG_VALUE_REQ then .diagValueReq
  else .other

/-- The command switch of mtbbus_received (main.c lines 506-649). -/
def dispatch (s : ModState) (broadcast : Bool) (command_code : Nat)
    (data : List Nat) : ModState × List Event :=
  match decodeCmd command_code with
  | .moduleInquiry =>
    if broadcast = false ∧ 1 ≤ data.length then
      module_inquiry s (data.headD 0 % 2 = 1)
    else invalid_msg s broadcast
  | .infoReq =>
    if broadcast = false then
      (s, [.sendFrame [9, MTBBUS_CMD_MISO_MODULE_INFO, CONFIG_MODULE_TYPE,
            if 0 < s.mtbbus_warn_flags then 4 else 0,
            CONFIG_FW_MAJOR, CONFIG_FW_MINOR, CONFIG_PROTO_MAJOR, CONFIG_PROTO_MINOR,
            s.bootloader_version / 256 % 256, s.bootloader_version % 256]])
    else invalid_msg s broadcast
  | .setConfig =>
    if 24 ≤ data.length ∧ broadcast = false then
      ({ s with config_safe_state := data.take NO_OUTPUTS,
                config_inputs_delay := (data.drop NO_OUTPUTS).take (NO_INPUTS / 2),
                config_write := true },
       [.sendFrame ackFrame])
    else invalid_msg s broadcast
  | .getConfig =>
    if broadcast = false then
      (s, [.sendFrame ([25, MTBBUS_CMD_MISO_MODULE_CONFIG]
            ++ s.config_safe_state ++ s.config_inputs_delay)])
    else invalid_msg s broadcast
  | .beacon =>
    if 1 ≤ data.length then
      ({ s with beacon := data.headD 0 ≠ 0 },
       if broadcast = false then [.sendFrame ackFrame] else [])
    else invalid_msg s broadcast
  | .getInput =>
    if broadcast = false then
      (s, [.sendFrame (inputsFrame MTBBUS_CMD_MISO_INPUT_STATE s.inputs_logic_state)])
    else invalid_msg s broadcast
  | .setOutput =>
    if 4 ≤ data.length ∧ broadcast = false then
      ({ s with outputs_changed_when_setting_scom := true },
       [.sendFrame ((data.length + 1) :: MTBBUS_CMD_MISO_OUTPUT_SET :: data),
        .outputsSetZipped data])
    else invalid_msg s broadcast
  | .resetOutputs =>
    (s, (if broadcast = false then [.sendFrame ackFrame] else [])
         ++ [.outputsSetFull s.config_safe_state])
  | .changeAddr =>
    if 1 ≤ data.length ∧ broadcast = false then
      (s, [.sendFrame (errorFrame MTBBUS_ERROR_UNSUPPORTED_COMMAND)])
    else invalid_msg s broadcast
  | .changeSpeed =>
    if 1 ≤ data.length then
      ({ s with config_mtbbus_speed := data.headD 0, config_write := true,
                mtbbus_speed := data.headD 0 },
       .setSpeed (data.headD 0)
         :: (if broadcast = false then [.sendFrame ackFrame] else []))
    else invalid_msg s broadcast
  | .fwupgd =>
    if 1 ≤ data.length ∧ broadcast = false then
      ({ s with mtbbus_on_sent_bootloader := true },
       [.bootFwupgd, .sendFrame ackFrame])
    else invalid_msg s broadcast
  | .reboot =>
    if broadcast then (s, [.gotoBootloader])
    else ({ s with mtbbus_on_sent_bootloader := true }, [.sendFrame ackFrame])
  | .diagValueReq =>
    if 1 ≤ data.length then
      send_diag_value s (data.headD 0)
    else invalid_msg s broadcast
  | .other => invalid_msg s broadcast

/-- mtbbus_auto_speed_received (main.c lines 712-717): a valid frame while
probing stops autodetection and persists the current transport speed. -/
def mtbbus_auto_speed_received (s : ModState) : ModState :=
  { s with mtbbus_auto_speed_in_progress := false,
           config_mtbbus_speed := s.mtbbus_speed,
           config_write := true }

/-- The receive preamble of mtbbus_received (main.c lines 495-504):
polarity flag clear, green-LED pulse, liveness timer reset, and autodetect
success handling. -/
def receive_preamble (s : ModState) : ModState :=
  let s1 : ModState :=
    { s with error_bad_polarity := false,
             led_gr_counter := if s.led_gr_counter = 0 then LED_GR_ON else s.led_gr_counter,
             mtbbus_timeout := 0 }
  if s1.mtbbus_auto_speed_in_progress then mtbbus_auto_speed_received s1 else s1

/-- mtbbus_received (main.c lines 491-650): drop everything before the
initialization gate opens, otherwise run the receive preamble and dispatch
on the command code. -/
def mtbbus_received (s : ModState) (broadcast : Bool) (command_code : Nat)
    (data : List Nat) : ModState × List Event :=
  if s.initialized = false then (s, [])
  else dispatch (receive_preamble s) broadcast command_code data

/-- mtbbus_auto_speed_next (main.c lines 704-710): reset the probe timer,
advance to the next speed with wraparound past MTBBUS_SPEED_MAX, and
reconfigure the transport to it. -/
def mtbbus_auto_speed_next (s : ModState) : ModState × List Event :=
  let last0 := s.mtbbus_auto_speed_last + 1
  let last := if MTBBUS_SPEED_MAX < last0 then MTBBUS_SPEED_38400 else last0
  ({ s with mtbbus_auto_speed_timer := 0, mtbbus_auto_speed_last := last,
            mtbbus_speed := last },
   [.setSpeed last])

/-- autodetect_mtbbus_speed (main.c lines 697-702): start probing, with the
speed counter seeded so the first probe is MTBBUS_SPEED_38400. -/
def autodetect_mtbbus_speed (s : ModState) : ModState × List Event :=
  mtbbus_auto_speed_next
    { s with mtbbus_auto_speed_in_progress := true, mtbbus_auto_speed_last := 0 }

/-- n elapsed probe timeouts with no valid frame: the main loop (main.c
lines 307-308) calls mtbbus_auto_speed_next each time the probe timer
reaches MTBBUS_AUTO_SPEED_TIMEOUT. -/
def probeTimeouts (s : ModState) : Nat → ModState
  | 0 => s
  | n + 1 => (mtbbus_auto_speed_next (probeTimeouts s n)).1

/-- mtbbus_send_ack of the earlier revision (main.c lines 177-183): stages
the ACK frame only when the output buffer can be filled, otherwise writes
nothing. -/
def mtbbus_send_ack_v1 (can_fill : Bool) : Option (List Nat) :=
  if can_fill then some ackFrame else none

/-- mtbbus_send_inputs of the earlier revision (main.c lines 185-193). -/
def mtbbus_send_inputs_v1 (can_fill : Bool) (message_code inputs : Nat) :
    Option (List Nat) :=
  if can_fill then some (inputsFrame message_code inputs) else none

/-- mtbbus_send_ack of the current revision (main.c lines 656-660): does
not consult mtbbus_can_fill_output_buf (comment at lines 652-654) and
stages the frame unconditionally. -/
def mtbbus_send_ack_cur (_can_fill : Bool) : Option (List Nat) :=
  some ackFrame

/-- Modelled from the spec: the Broadcast? column of the section 6 wire
protocol table — which request codes may legally be sent broadcast. -/
def specBroadcastAllowed (command_code : Nat) : Bool :=
  command_code = MTBBUS_CMD_MOSI_BEACON
  ∨ command_code = MTBBUS_CMD_MOSI_RESET_OUTPUTS
  ∨ command_code = MTBBUS_CMD_MOSI_CHANGE_SPEED
  ∨ command_code = MTBBUS_CMD_MOSI_REBOOT

namespace Btn

/-- Interleaved occurrences seen by the button machinery while the button
stays physically held: a 10 ms timer-3 tick (ISR, main.c lines 409-410)
and a main-loop pass (main.c lines 302-305). -/
inductive Ev where
  | tick
  | loopPass
  deriving Repr, DecidableEq

/-- Actions fired by the button state machine. -/
inductive Act where
  | short
  | long
  deriving Repr, DecidableEq

/-- One occurrence while held, acting on btn_press_time (btn_pressed is
true throughout): the ISR increments below BTN_PRESS_1S; the loop pass
fires the long press and latches the counter at 0xFF when it reads exactly
BTN_PRESS_1S. -/
def step (t : Nat) : Ev → Nat × List Act
  | .tick => (if t < BTN_PRESS_1S then t + 1 else t, [])
  | .loopPass => if t = BTN_PRESS_1S then (0xFF, [.long]) else (t, [])

/-- Run a sequence of occurrences from counter value t, collecting fired
actions in order. -/
def run (t : Nat) : List Ev → Nat × List Act
  | [] => (t, [])
  | e :: evs =>
    let r := step t e
    let rest := run r.1 evs
    (rest.1, r.2 ++ rest.2)

/-- btn_on_depressed (main.c lines 465-468): the release fires the short
press only when the hold counter never reached BTN_PRESS_1S. -/
def release (t : Nat) : List Act :=
  if t < BTN_PRESS_1S then [.short] else []

/-- Number of timer ticks in an occurrence sequence. -/
def ticks (evs : List Ev) : Nat := (evs.filter fun e => e = Ev.tick).length

/-- Number of long-press firings in an action list. -/
def longs (acts : List Act) : Nat := (acts.filter fun a => a = Act.long).length

end Btn

/-- A concrete post-initialization module state used to evaluate the
dispatcher on explicit inputs. -/
def s0 : ModState :=
  { initialized := true
    error_addr_zero := false
    error_bad_polarity := false
    led_gr_counter := 0
    beacon := false
    last_input_changed := false
    last_diag_changed := false
    first_scan := true
    inputs_logic_state := 0
    inputs_old := 0
    mtbbus_warn_flags := 0
    mtbbus_warn_flags_old := 0
    config_safe_state := List.replicate 16 0
    config_inputs_delay := List.replicate 8 5
    config_mtbbus_speed := 1
    config_write := false
    mtbbus_speed := 1
    mtbbus_timeout := 100
    mtbbus_auto_speed_in_progress := false
    mtbbus_auto_speed_timer := 0
    mtbbus_auto_speed_last := 0
    mtbbus_on_sent_bootloader := false
    outputs_changed_when_setting_scom := false
    bootloader_version := 0x0107
    uptime_seconds := 0
    vcc_voltage := 0
    diag_received := 0
    diag_bad_crc := 0
    diag_sent := 0
    diag_unsent := 0 }

/-- A concrete state past the first scan, with inputs reported and no
pending notification of either class. -/
def sQuiet : ModState :=
  { s0 with first_scan := false, inputs_logic_state := 0x1234,
            inputs_old := 0x1234 }

/-
Helper lemmas shared by the claim theorems.
-/

theorem receive_preamble_eq (s : ModState) :
    receive_preamble s =
      (if s.mtbbus_auto_speed_in_progress then
        { s with error_bad_polarity := false,
                 led_gr_counter := if s.led_gr_counter = 0 then LED_GR_ON else s.led_gr_counter,
                 mtbbus_timeout := 0,
                 mtbbus_auto_speed_in_progress := false,
                 config_mtbbus_speed := s.mtbbus_speed,
                 config_write := true }
      else
        { s with error_bad_polarity := false,
                 led_gr_counter := if s.led_gr_counter = 0 then LED_GR_ON else s.led_gr_counter,
                 mtbbus_timeout := 0 }) := by
  unfold receive_preamble mtbbus_auto_speed_received
  split <;> rfl

@[simp]
theorem receive_preamble_inputs_logic_state (s : ModState) :
    (receive_preamble s).inputs_logic_state = s.inputs_logic_state := by
  rw [receive_preamble_eq]; split <;> rfl

@[simp]
theorem receive_preamble_inputs_old (s : ModState) :
    (receive_preamble s).inputs_old = s.inputs_old := by
  rw [receive_preamble_eq]; split <;> rfl

@[simp]
theorem receive_preamble_first_scan (s : ModState) :
    (receive_preamble s).first_scan = s.first_scan := by
  rw [receive_preamble_eq]; split <;> rfl

@[simp]
theorem receive_preamble_last_input_changed (s : ModState) :
    (receive_preamble s).last_input_changed = s.last_input_changed := by
  rw [receive_preamble_eq]; split <;> rfl

@[simp]
theorem receive_preamble_last_diag_changed (s : ModState) :
    (receive_preamble s).last_diag_changed = s.last_diag_changed := by
  rw [receive_preamble_eq]; split <;> rfl

@[simp]
theorem receive_preamble_warn_flags (s : ModState) :
    (receive_preamble s).mtbbus_warn_flags = s.mtbbus_warn_flags := by
  rw [receive_preamble_eq]; split <;> rfl

@[simp]
theorem receive_preamble_warn_flags_old (s : ModState) :
    (receive_preamble s).mtbbus_warn_flags_old = s.mtbbus_warn_flags_old := by
  rw [receive_preamble_eq]; split <;> rfl

@[simp]
theorem receive_preamble_config_safe_state (s : ModState) :
    (receive_preamble s).config_safe_state = s.config_safe_state := by
  rw [receive_preamble_eq]; split <;> rfl

@[simp]
theorem receive_preamble_config_inputs_delay (s : ModState) :
    (receive_preamble s).config_inputs_delay = s.config_inputs_delay := by
  rw [receive_preamble_eq]; split <;> rfl

@[simp]
theorem receive_preamble_auto_in_progress (s : ModState) :
    (receive_preamble s).mtbbus_auto_speed_in_progress = false := by
  rw [receive_preamble_eq]; split <;> simp_all

/-- Claim C3: every request frame received while the initialized flag is
still false is dropped by the dispatcher entry point with no response and
no change to the core state, whatever the command, payload or broadcast
flag. -/
theorem uninitialized_frames_dropped (s : ModState) (b : Bool) (c : Nat)
    (d : List Nat) (h : s.initialized = false) :
    mtbbus_received s b c d = (s, []) := by
  unfold mtbbus_received
  rw [h]
  rfl

/-- Witness for claim C3 at a concrete pre-initialization state and a
concrete valid MODULE_INQUIRY request. -/
theorem uninitialized_frames_dropped_witness :
    ({ s0 with initialized := false } : ModState).initialized = false ∧
    mtbbus_received { s0 with initialized := false } false
        MTBBUS_CMD_MOSI_MODULE_INQUIRY [1]
      = ({ s0 with initialized := false }, []) :=
  ⟨rfl, uninitialized_frames_dropped _ _ _ _ rfl⟩

theorem received_inquiry (s : ModState) (data : List Nat)
    (hinit : s.initialized = true) (hlen : 1 ≤ data.length) :
    mtbbus_received s false MTBBUS_CMD_MOSI_MODULE_INQUIRY data
      = module_inquiry (receive_preamble s) (data.headD 0 % 2 = 1) := by
  unfold mtbbus_received dispatch
  rw [hinit]
  simp [decodeCmd, hlen]

/-- Claim C1: a unicast MODULE_INQUIRY with at least one payload byte,
received after initialization, is answered by exactly one of INPUT_CHANGED,
DIAG_VALUE(state) or ACK, by priority: INPUT_CHANGED on the first inquiry
since startup, on a live snapshot differing from the last-reported one, or
on an unacknowledged input notification (poll bit0 clear) — the retry
resending the same snapshot — and only otherwise a diagnostic state push
(warning bitset changed or diagnostic notification unacknowledged), and
only otherwise ACK. -/
theorem inquiry_tracker_priority (s : ModState) (data : List Nat)
    (hinit : s.initialized = true) (hlen : 1 ≤ data.length) :
    ((s.inputs_logic_state ≠ s.inputs_old
        ∨ (s.last_input_changed = true ∧ data.headD 0 % 2 ≠ 1)
        ∨ s.first_scan = true) →
      (mtbbus_received s false MTBBUS_CMD_MOSI_MODULE_INQUIRY data).2
          = [.sendFrame (inputsFrame MTBBUS_CMD_MISO_INPUT_CHANGED s.inputs_logic_state)]
        ∧ (mtbbus_received s false MTBBUS_CMD_MOSI_MODULE_INQUIRY data).1.inputs_old
          = s.inputs_logic_state)
    ∧ ((s.last_input_changed = true ∧ data.headD 0 % 2 ≠ 1
          ∧ s.inputs_logic_state = s.inputs_old) →
      (mtbbus_received s false MTBBUS_CMD_MOSI_MODULE_INQUIRY data).2
          = [.sendFrame (inputsFrame MTBBUS_CMD_MISO_INPUT_CHANGED s.inputs_old)])
    ∧ (¬(s.inputs_logic_state ≠ s.inputs_old
          ∨ (s.last_input_changed = true ∧ data.headD 0 % 2 ≠ 1)
          ∨ s.first_scan = true) →
       (s.mtbbus_warn_flags ≠ s.mtbbus_warn_flags_old
          ∨ (s.last_diag_changed = true ∧ data.headD 0 % 2 ≠ 1)) →
      (mtbbus_received s false MTBBUS_CMD_MOSI_MODULE_INQUIRY data).2
          = [.sendFrame [3, MTBBUS_CMD_MISO_DIAG_VALUE, MTBBUS_DV_STATE,
              if 0 < s.mtbbus_warn_flags then 2 else 0]])
    ∧ (¬(s.inputs_logic_state ≠ s.inputs_old
          ∨ (s.last_input_changed = true ∧ data.headD 0 % 2 ≠ 1)
          ∨ s.first_scan = true) →
       ¬(s.mtbbus_warn_flags ≠ s.mtbbus_warn_flags_old
          ∨ (s.last_diag_changed = true ∧ data.headD 0 % 2 ≠ 1)) →
      (mtbbus_received s false MTBBUS_CMD_MOSI_MODULE_INQUIRY data).2
          = [.sendFrame ackFrame]) := by
  have e := received_inquiry s data hinit hlen
  refine ⟨?_, ?_, ?_, ?_⟩
  · intro h
    rw [e]
    unfold module_inquiry
    simp only [receive_preamble_inputs_logic_state, receive_preamble_inputs_old,
      receive_preamble_last_input_changed, receive_preamble_first_scan,
      decide_eq_false_iff_not]
    rw [if_pos h]
    exact ⟨rfl, rfl⟩
  · intro h
    rw [e]
    unfold module_inquiry
    simp only [receive_preamble_inputs_logic_state, receive_preamble_inputs_old,
      receive_preamble_last_input_changed, receive_preamble_first_scan,
      decide_eq_false_iff_not]
    rw [if_pos (Or.inr (Or.inl ⟨h.1, h.2.1⟩)), h.2.2]
  · intro hni hd
    rw [e]
    unfold module_inquiry
    simp only [receive_preamble_inputs_logic_state, receive_preamble_inputs_old,
      receive_preamble_last_input_changed, receive_preamble_first_scan,
      receive_preamble_warn_flags, receive_preamble_warn_flags_old,
      receive_preamble_last_diag_changed, decide_eq_false_iff_not]
    rw [if_neg hni, if_pos hd]
    unfold send_diag_value
    simp [MTBBUS_DV_STATE, MTBBUS_DV_VERSION]
  · intro hni hnd
    rw [e]
    unfold module_inquiry
    simp only [receive_preamble_inputs_logic_state, receive_preamble_inputs_old,
      receive_preamble_last_input_changed, receive_preamble_first_scan,
      receive_preamble_warn_flags, receive_preamble_warn_flags_old,
      receive_preamble_last_diag_changed, decide_eq_false_iff_not]
    rw [if_neg hni, if_neg hnd]

/-- Witness for claim C1: on the concrete fresh state s0 the first inquiry
(payload byte 1, prior notification received) is answered with
INPUT_CHANGED carrying the live snapshot. -/
theorem inquiry_tracker_priority_witness :
    s0.initialized = true ∧ 1 ≤ ([1] : List Nat).length ∧
    (mtbbus_received s0 false MTBBUS_CMD_MOSI_MODULE_INQUIRY [1]).2
      = [.sendFrame (inputsFrame MTBBUS_CMD_MISO_INPUT_CHANGED s0.inputs_logic_state)] :=
  ⟨rfl, by decide,
    ((inquiry_tracker_priority s0 [1] rfl (by decide)).1
      (Or.inr (Or.inr rfl))).1⟩

theorem invalid_msg_fst (s : ModState) (b : Bool) : (invalid_msg s b).1 = s := by
  unfold invalid_msg
  split <;> rfl

theorem send_diag_value_auto (s : ModState) (i : Nat) :
    ((send_diag_value s i).1).mtbbus_auto_speed_in_progress
      = s.mtbbus_auto_speed_in_progress := by
  unfold send_diag_value
  (repeat' split) <;> rfl

theorem module_inquiry_auto (s : ModState) (lok : Bool) :
    ((module_inquiry s lok).1).mtbbus_auto_speed_in_progress
      = s.mtbbus_auto_speed_in_progress := by
  unfold module_inquiry
  (repeat' split) <;> simp [send_diag_value_auto]

theorem dispatch_auto (s : ModState) (b : Bool) (c : Nat) (d : List Nat) :
    ((dispatch s b c d).1).mtbbus_auto_speed_in_progress
      = s.mtbbus_auto_speed_in_progress := by
  unfold dispatch
  cases decodeCmd c <;>
    (repeat' split) <;>
    simp [invalid_msg_fst, send_diag_value_auto, module_inquiry_auto]

theorem received_auto_false (s : ModState) (b : Bool) (c : Nat) (d : List Nat)
    (h : s.initialized = true) :
    ((mtbbus_received s b c d).1).mtbbus_auto_speed_in_progress = false := by
  unfold mtbbus_received
  rw [h]
  simp [dispatch_auto]

theorem probeTimeouts_in_progress (s : ModState) (n : Nat) :
    (probeTimeouts s n).mtbbus_auto_speed_in_progress
      = s.mtbbus_auto_speed_in_progress := by
  induction n with
  | zero => rfl
  | succ n ih => simpa [probeTimeouts, mtbbus_auto_speed_next] using ih

theorem probeTimeouts_initialized (s : ModState) (n : Nat) :
    (probeTimeouts s n).initialized = s.initialized := by
  induction n with
  | zero => rfl
  | succ n ih => simpa [probeTimeouts, mtbbus_auto_speed_next] using ih

theorem probeTimeouts_last (s : ModState) (h : s.mtbbus_auto_speed_last = 1)
    (n : Nat) :
    (probeTimeouts s n).mtbbus_auto_speed_last = n % MTBBUS_SPEED_MAX + 1 := by
  induction n with
  | zero => simpa [probeTimeouts, MTBBUS_SPEED_MAX] using h
  | succ n ih =>
    show (mtbbus_auto_speed_next (probeTimeouts s n)).1.mtbbus_auto_speed_last = _
    unfold mtbbus_auto_speed_next
    dsimp only
    rw [ih]
    unfold MTBBUS_SPEED_MAX MTBBUS_SPEED_38400
    split <;> omega

theorem probeTimeouts_speed_eq_last (s : ModState)
    (h : s.mtbbus_speed = s.mtbbus_auto_speed_last) (n : Nat) :
    (probeTimeouts s n).mtbbus_speed
      = (probeTimeouts s n).mtbbus_auto_speed_last := by
  induction n with
  | zero => exact h
  | succ n _ =>
    show (mtbbus_auto_speed_next (probeTimeouts s n)).1.mtbbus_speed = _
    rfl

/-- Claim C4: the speed-autodetect machine starts probing at the minimum
speed; each elapsed probe timeout with no valid frame advances to the next
speed wrapping past MTBBUS_SPEED_MAX back to the minimum (after n timeouts
it probes speed n mod MAX + min, so it visits every speed in order and
never leaves the probing state on its own); and a valid frame while
probing deactivates it, persists the speed the frame arrived on and sets
the configuration-dirty flag. -/
theorem autodetect_speed_machine (s : ModState) (n : Nat) (b : Bool) (c : Nat)
    (d : List Nat) (hinit : s.initialized = true) :
    ((autodetect_mtbbus_speed s).1).mtbbus_auto_speed_last = MTBBUS_SPEED_38400
    ∧ (probeTimeouts (autodetect_mtbbus_speed s).1 n).mtbbus_auto_speed_in_progress
        = true
    ∧ (probeTimeouts (autodetect_mtbbus_speed s).1 n).mtbbus_auto_speed_last
        = n % MTBBUS_SPEED_MAX + MTBBUS_SPEED_38400
    ∧ (probeTimeouts (autodetect_mtbbus_speed s).1 n).mtbbus_speed
        = (probeTimeouts (autodetect_mtbbus_speed s).1 n).mtbbus_auto_speed_last
    ∧ (mtbbus_auto_speed_received
        (probeTimeouts (autodetect_mtbbus_speed s).1 n)).mtbbus_auto_speed_in_progress
        = false
    ∧ (mtbbus_auto_speed_received
        (probeTimeouts (autodetect_mtbbus_speed s).1 n)).config_mtbbus_speed
        = (probeTimeouts (autodetect_mtbbus_speed s).1 n).mtbbus_speed
    ∧ (mtbbus_auto_speed_received
        (probeTimeouts (autodetect_mtbbus_speed s).1 n)).config_write = true
    ∧ ((mtbbus_received (probeTimeouts (autodetect_mtbbus_speed s).1 n)
        b c d).1).mtbbus_auto_speed_in_progress = false := by
  refine ⟨rfl, ?_, ?_, ?_, rfl, rfl, rfl, ?_⟩
  · rw [probeTimeouts_in_progress]
    rfl
  · exact probeTimeouts_last _ rfl n
  · exact probeTimeouts_speed_eq_last _ rfl n
  · refine received_auto_false _ _ _ _ ?_
    rw [probeTimeouts_initialized]
    exact hinit

/-- Witness for claim C4 on the concrete state s0 with five probe timeouts
(one past the wraparound) and a concrete inquiry frame. -/
theorem autodetect_speed_machine_witness :
    s0.initialized = true ∧
    (((autodetect_mtbbus_speed s0).1).mtbbus_auto_speed_last = MTBBUS_SPEED_38400
    ∧ (probeTimeouts (autodetect_mtbbus_speed s0).1 5).mtbbus_auto_speed_in_progress
        = true
    ∧ (probeTimeouts (autodetect_mtbbus_speed s0).1 5).mtbbus_auto_speed_last
        = 5 % MTBBUS_SPEED_MAX + MTBBUS_SPEED_38400
    ∧ (probeTimeouts (autodetect_mtbbus_speed s0).1 5).mtbbus_speed
        = (probeTimeouts (autodetect_mtbbus_speed s0).1 5).mtbbus_auto_speed_last
    ∧ (mtbbus_auto_speed_received
        (probeTimeouts (autodetect_mtbbus_speed s0).1 5)).mtbbus_auto_speed_in_progress
        = false
    ∧ (mtbbus_auto_speed_received
        (probeTimeouts (autodetect_mtbbus_speed s0).1 5)).config_mtbbus_speed
        = (probeTimeouts (autodetect_mtbbus_speed s0).1 5).mtbbus_speed
    ∧ (mtbbus_auto_speed_received
        (probeTimeouts (autodetect_mtbbus_speed s0).1 5)).config_write = true
    ∧ ((mtbbus_received (probeTimeouts (autodetect_mtbbus_speed s0).1 5)
        false MTBBUS_CMD_MOSI_MODULE_INQUIRY [1]).1).mtbbus_auto_speed_in_progress
        = false) :=
  ⟨rfl, autodetect_speed_machine s0 5 false MTBBUS_CMD_MOSI_MODULE_INQUIRY [1] rfl⟩

theorem received_eq_dispatch_pre (s : ModState) (b : Bool) (c : Nat)
    (d : List Nat) (hinit : s.initialized = true) :
    mtbbus_received s b c d = dispatch (receive_preamble s) b c d := by
  unfold mtbbus_received
  rw [hinit]
  simp

theorem decode_setConfig : decodeCmd MTBBUS_CMD_MOSI_SET_CONFIG = Cmd.setConfig := rfl

theorem decode_setOutput : decodeCmd MTBBUS_CMD_MOSI_SET_OUTPUT = Cmd.setOutput := rfl

theorem decode_resetOutputs :
    decodeCmd MTBBUS_CMD_MOSI_RESET_OUTPUTS = Cmd.resetOutputs := rfl

theorem decode_changeSpeed :
    decodeCmd MTBBUS_CMD_MOSI_CHANGE_SPEED = Cmd.changeSpeed := rfl

/-- Claim C5: a SET_CONFIG whose payload is shorter than the 24-byte
minimum leaves both persisted configuration tables unchanged and, when
unicast, is answered with the ERROR frame; a unicast SET_CONFIG with a
sufficient payload copies the leading bytes into the safe-state table and
the following bytes into the debounce-delay table, sets the
configuration-dirty flag and acknowledges immediately. -/
theorem set_config_validation (s : ModState) (data : List Nat) (b : Bool)
    (hinit : s.initialized = true) :
    (data.length < 24 →
      (mtbbus_received s b MTBBUS_CMD_MOSI_SET_CONFIG data).1.config_safe_state
          = s.config_safe_state
      ∧ (mtbbus_received s b MTBBUS_CMD_MOSI_SET_CONFIG data).1.config_inputs_delay
          = s.config_inputs_delay
      ∧ (mtbbus_received s false MTBBUS_CMD_MOSI_SET_CONFIG data).2
          = [.sendFrame (errorFrame MTBBUS_ERROR_UNKNOWN_COMMAND)])
    ∧ (24 ≤ data.length →
      (mtbbus_received s false MTBBUS_CMD_MOSI_SET_CONFIG data).1.config_safe_state
          = data.take NO_OUTPUTS
      ∧ (mtbbus_received s false MTBBUS_CMD_MOSI_SET_CONFIG data).1.config_inputs_delay
          = (data.drop NO_OUTPUTS).take (NO_INPUTS / 2)
      ∧ (mtbbus_received s false MTBBUS_CMD_MOSI_SET_CONFIG data).1.config_write = true
      ∧ (mtbbus_received s false MTBBUS_CMD_MOSI_SET_CONFIG data).2
          = [.sendFrame ackFrame]) := by
  constructor
  · intro h
    have hn : ¬(24 ≤ data.length ∧ b = false) := by
      intro hc
      omega
    have hn2 : ¬(24 ≤ data.length ∧ false = false) := by
      intro hc
      omega
    rw [received_eq_dispatch_pre s b _ data hinit,
        received_eq_dispatch_pre s false _ data hinit]
    unfold dispatch
    rw [decode_setConfig]
    dsimp only
    rw [if_neg hn, if_neg hn2]
    refine ⟨?_, ?_, ?_⟩
    · rw [invalid_msg_fst]
      simp
    · rw [invalid_msg_fst]
      simp
    · unfold invalid_msg
      simp
  · intro h
    rw [received_eq_dispatch_pre s false _ data hinit]
    unfold dispatch
    rw [decode_setConfig]
    dsimp only
    rw [if_pos ⟨h, rfl⟩]
    exact ⟨rfl, rfl, rfl, rfl⟩

/-- Witness for claim C5: a 24-byte payload on the concrete state s0 is
copied into the two configuration tables, marks the configuration dirty
and is acknowledged. -/
theorem set_config_validation_witness :
    s0.initialized = true ∧ 24 ≤ (List.range 24).length ∧
    (mtbbus_received s0 false MTBBUS_CMD_MOSI_SET_CONFIG (List.range 24)).1.config_safe_state
        = (List.range 24).take NO_OUTPUTS ∧
    (mtbbus_received s0 false MTBBUS_CMD_MOSI_SET_CONFIG (List.range 24)).2
        = [.sendFrame ackFrame] :=
  ⟨rfl, by decide,
    ((set_config_validation s0 (List.range 24) false rfl).2 (by decide)).1,
    ((set_config_validation s0 (List.range 24) false rfl).2 (by decide)).2.2.2⟩

/-- Claim C7 (amended): a valid unicast SET_OUTPUT stages and hands the
echo response to the transport before invoking the output driver, and
RESET_OUTPUTS likewise acknowledges before restoring the safe state; the
response-before-effect order does not extend to every command with both an
acknowledgment and an effect (BEACON, CHANGE_SPEED and FWUPGD_REQUEST
apply their effect first). -/
theorem set_output_response_before_effect (s : ModState) (data : List Nat)
    (hinit : s.initialized = true) (hlen : 4 ≤ data.length) :
    (mtbbus_received s false MTBBUS_CMD_MOSI_SET_OUTPUT data).2
        = [.sendFrame ((data.length + 1) :: MTBBUS_CMD_MISO_OUTPUT_SET :: data),
           .outputsSetZipped data]
    ∧ effectPrecedesResponse
        (mtbbus_received s false MTBBUS_CMD_MOSI_SET_OUTPUT data).2 = false
    ∧ (mtbbus_received s false MTBBUS_CMD_MOSI_RESET_OUTPUTS []).2
        = [.sendFrame ackFrame, .outputsSetFull s.config_safe_state]
    ∧ effectPrecedesResponse
        (mtbbus_received s false MTBBUS_CMD_MOSI_RESET_OUTPUTS []).2 = false := by
  have e1 := received_eq_dispatch_pre s false MTBBUS_CMD_MOSI_SET_OUTPUT data hinit
  have e2 := received_eq_dispatch_pre s false MTBBUS_CMD_MOSI_RESET_OUTPUTS [] hinit
  rw [e1, e2]
  unfold dispatch
  rw [decode_setOutput, decode_resetOutputs]
  dsimp only
  rw [if_pos ⟨hlen, rfl⟩]
  refine ⟨rfl, rfl, ?_, ?_⟩
  · simp [receive_preamble_config_safe_state]
  · simp [effectPrecedesResponse, isResponse, List.takeWhile]

/-- Witness for claim C7 (amended) at the concrete state s0 and a concrete
4-byte SET_OUTPUT payload. -/
theorem set_output_response_before_effect_witness :
    s0.initialized = true ∧ 4 ≤ ([1, 2, 3, 4] : List Nat).length ∧
    (mtbbus_received s0 false MTBBUS_CMD_MOSI_SET_OUTPUT [1, 2, 3, 4]).2
        = [.sendFrame [5, MTBBUS_CMD_MISO_OUTPUT_SET, 1, 2, 3, 4],
           .outputsSetZipped [1, 2, 3, 4]] :=
  ⟨rfl, by decide,
    (set_output_response_before_effect s0 [1, 2, 3, 4] rfl (by decide)).1⟩

/-- Counterexample to claim C7 as stated: the unicast CHANGE_SPEED request
with payload byte 2 both acknowledges and has an effect, yet the dispatcher
invokes the speed-change effect before staging the acknowledgment. -/
theorem ack_before_effect_counterexample :
    (mtbbus_received sQuiet false MTBBUS_CMD_MOSI_CHANGE_SPEED [2]).2
        = [.setSpeed 2, .sendFrame ackFrame]
    ∧ effectPrecedesResponse
        (mtbbus_received sQuiet false MTBBUS_CMD_MOSI_CHANGE_SPEED [2]).2 = true := by
  constructor
  · rfl
  · rfl

/-- Claim C10: a CHANGE_SPEED request with a payload byte, unicast or
broadcast, applies the raw byte immediately as the transport speed, stores
it in the persisted configuration with the dirty flag set — with no
validation against the supported speed enumeration — and only afterwards
(and only when unicast) acknowledges. -/
theorem change_speed_applies_raw_byte (s : ModState) (data : List Nat)
    (b : Bool) (hinit : s.initialized = true) (hlen : 1 ≤ data.length) :
    (mtbbus_received s b MTBBUS_CMD_MOSI_CHANGE_SPEED data).1.config_mtbbus_speed
        = data.headD 0
    ∧ (mtbbus_received s b MTBBUS_CMD_MOSI_CHANGE_SPEED data).1.config_write = true
    ∧ (mtbbus_received s b MTBBUS_CMD_MOSI_CHANGE_SPEED data).1.mtbbus_speed
        = data.headD 0
    ∧ (mtbbus_received s b MTBBUS_CMD_MOSI_CHANGE_SPEED data).2
        = .setSpeed (data.headD 0)
            :: (if b = false then [.sendFrame ackFrame] else []) := by
  rw [received_eq_dispatch_pre s b _ data hinit]
  unfold dispatch
  rw [decode_changeSpeed]
  dsimp only
  rw [if_pos hlen]
  exact ⟨rfl, rfl, rfl, rfl⟩

/-- Witness for claim C10: the out-of-enumeration speed byte 0xEE is
applied and persisted as-is on the concrete state s0. -/
theorem change_speed_applies_raw_byte_witness :
    s0.initialized = true ∧ 1 ≤ ([0xEE] : List Nat).length ∧
    (mtbbus_received s0 false MTBBUS_CMD_MOSI_CHANGE_SPEED [0xEE]).1.config_mtbbus_speed
        = 0xEE ∧
    (mtbbus_received s0 false MTBBUS_CMD_MOSI_CHANGE_SPEED [0xEE]).2
        = [.setSpeed 0xEE, .sendFrame ackFrame] :=
  ⟨rfl, by decide,
    (change_speed_applies_raw_byte s0 [0xEE] false rfl (by decide)).1,
    by
      rw [(change_speed_applies_raw_byte s0 [0xEE] false rfl (by decide)).2.2.2]
      rfl⟩

/-- Claim C2 failing input: the DIAG_VALUE_REQ case (main.c lines 638-642)
has no broadcast guard, so a broadcast diagnostic request with one payload
byte stages and transmits a DIAG_VALUE response frame — the dispatcher
does respond to a broadcast request. -/
theorem broadcast_diag_value_req_responds :
    (mtbbus_received s0 true MTBBUS_CMD_MOSI_DIAG_VALUE_REQ [0]).2
        = [.sendFrame [3, MTBBUS_CMD_MISO_DIAG_VALUE, MTBBUS_DV_VERSION, 0x10]]
    ∧ (mtbbus_received s0 true MTBBUS_CMD_MOSI_DIAG_VALUE_REQ [0]).2.any isResponse
        = true := by
  constructor
  · rfl
  · rfl

/-- Claim C6 failing input: broadcast use of DIAG_VALUE_REQ is illegal per
the wire-protocol table, yet the dispatcher answers it with a DIAG_VALUE
frame instead of staying silent. -/
theorem illegal_broadcast_not_silent :
    specBroadcastAllowed MTBBUS_CMD_MOSI_DIAG_VALUE_REQ = false
    ∧ (mtbbus_received sQuiet true MTBBUS_CMD_MOSI_DIAG_VALUE_REQ [1]).2
        = [.sendFrame [3, MTBBUS_CMD_MISO_DIAG_VALUE, MTBBUS_DV_STATE, 0]] := by
  constructor
  · rfl
  · rfl

/-- Counterexample to claim C9 as stated: the current revision of
mtbbus_send_ack stages the ACK frame even when the output buffer cannot be
filled, so it is not true that every response-staging routine first checks
the buffer. -/
theorem staging_no_busy_check_counterexample :
    mtbbus_send_ack_cur false = some ackFrame := rfl

/-- Claim C9 (amended): in the earlier revision of main.c the
response-staging routines first check mtbbus_can_fill_output_buf and write
nothing when the buffer is busy, silently dropping the response for that
cycle; the current revision's routines stage unconditionally, relying on
being called only from the request-response receive handler. -/
theorem staging_busy_check_v1 (message_code inputs : Nat) (can_fill : Bool) :
    mtbbus_send_ack_v1 false = none
    ∧ mtbbus_send_inputs_v1 false message_code inputs = none
    ∧ mtbbus_send_ack_v1 true = some ackFrame
    ∧ mtbbus_send_inputs_v1 true message_code inputs
        = some (inputsFrame message_code inputs)
    ∧ mtbbus_send_ack_cur can_fill = some ackFrame := by
  refine ⟨rfl, rfl, rfl, rfl, rfl⟩

namespace Btn

theorem ticks_cons_tick (evs : List Ev) :
    ticks (Ev.tick :: evs) = ticks evs + 1 := by
  simp [ticks]

theorem ticks_cons_loop (evs : List Ev) :
    ticks (Ev.loopPass :: evs) = ticks evs := by
  simp [ticks]

theorem run_append (t : Nat) (xs ys : List Ev) :
    run t (xs ++ ys)
      = ((run (run t xs).1 ys).1, (run t xs).2 ++ (run (run t xs).1 ys).2) := by
  induction xs generalizing t with
  | nil => simp [run]
  | cons e xs ih => simp [run, ih, List.append_assoc]

theorem run_latched (evs : List Ev) : run 255 evs = (255, []) := by
  induction evs with
  | nil => rfl
  | cons e evs ih => cases e <;> simp [run, step, BTN_PRESS_1S, ih]

theorem run_low (evs : List Ev) :
    ∀ t, t + ticks evs < BTN_PRESS_1S → run t evs = (t + ticks evs, []) := by
  induction evs with
  | nil =>
    intro t h
    simp [run, ticks]
  | cons e evs ih =>
    intro t h
    cases e with
    | tick =>
      rw [ticks_cons_tick] at h
      have ht : t < BTN_PRESS_1S := by omega
      have hr := ih (t + 1) (by omega)
      rw [ticks_cons_tick]
      simp [run, step, ht, hr]
      omega
    | loopPass =>
      rw [ticks_cons_loop] at h
      have ht : ¬t = BTN_PRESS_1S := by omega
      have hr := ih t h
      rw [ticks_cons_loop]
      simp [run, step, ht, hr]

theorem run_longs_le (evs : List Ev) :
    ∀ t, t ≤ BTN_PRESS_1S → longs (run t evs).2 ≤ 1 := by
  induction evs with
  | nil =>
    intro t h
    simp [run, longs]
  | cons e evs ih =>
    intro t h
    cases e with
    | tick =>
      by_cases ht : t < BTN_PRESS_1S
      · simpa [run, step, ht, longs] using ih (t + 1) (by omega)
      · simpa [run, step, ht, longs] using ih t h
    | loopPass =>
      by_cases ht : t = BTN_PRESS_1S
      · simp [run, step, ht, run_latched, longs]
      · simpa [run, step, ht, longs] using ih t h

theorem run_threshold (post : List Ev) :
    run BTN_PRESS_1S (Ev.loopPass :: post) = (255, [Act.long]) := by
  simp [run, step, run_latched]

set_option maxRecDepth 4000 in
theorem run_full_ticks : run 0 (List.replicate BTN_PRESS_1S Ev.tick)
    = (BTN_PRESS_1S, []) := by decide

end Btn

/-- Claim C8: for a button press-and-release cycle, modelled as a press
followed by an arbitrary interleaving of 10 ms ticks and main-loop passes
while held and then a release: if fewer than BTN_PRESS_1S ticks elapse,
nothing fires during the hold and exactly the short-press action fires on
release; the long-press action can fire at most once during any hold; and
once the hold reaches BTN_PRESS_1S ticks and the loop runs, the long-press
action fires exactly once — whatever happens while the button stays held
afterwards — and the release fires nothing. -/
theorem button_press_release_semantics (evs post : List Btn.Ev) :
    (Btn.ticks evs < BTN_PRESS_1S →
      Btn.run 0 evs = (Btn.ticks evs, [])
      ∧ Btn.release (Btn.run 0 evs).1 = [Btn.Act.short])
    ∧ Btn.longs (Btn.run 0 evs).2 ≤ 1
    ∧ (Btn.run 0 (List.replicate BTN_PRESS_1S Btn.Ev.tick
        ++ Btn.Ev.loopPass :: post)).2 = [Btn.Act.long]
    ∧ Btn.release (Btn.run 0 (List.replicate BTN_PRESS_1S Btn.Ev.tick
        ++ Btn.Ev.loopPass :: post)).1 = [] := by
  have happ := Btn.run_append 0 (List.replicate BTN_PRESS_1S Btn.Ev.tick)
    (Btn.Ev.loopPass :: post)
  rw [Btn.run_full_ticks] at happ
  rw [Btn.run_threshold] at happ
  refine ⟨?_, Btn.run_longs_le evs 0 (by omega), ?_, ?_⟩
  · intro h
    have hr := Btn.run_low evs 0 (by omega)
    rw [hr]
    exact ⟨by simp, by simp [Btn.release, h]⟩
  · rw [happ]
    rfl
  · rw [happ]
    simp [Btn.release, BTN_PRESS_1S]


/-- Witness for claim C8: a 2-tick hold fires only the short press on
release, and a hold of exactly the threshold followed by a loop pass and
two further held occurrences fires the long press exactly once. -/
theorem button_press_release_semantics_witness :
    Btn.ticks [Btn.Ev.tick, Btn.Ev.tick, Btn.Ev.loopPass] < BTN_PRESS_1S
    ∧ Btn.release
        (Btn.run 0 [Btn.Ev.tick, Btn.Ev.tick, Btn.Ev.loopPass]).1 = [Btn.Act.short]
    ∧ (Btn.run 0 (List.replicate BTN_PRESS_1S Btn.Ev.tick
        ++ Btn.Ev.loopPass :: [Btn.Ev.tick, Btn.Ev.loopPass])).2 = [Btn.Act.long] :=
  ⟨by decide,
    ((button_press_release_semantics [Btn.Ev.tick, Btn.Ev.tick, Btn.Ev.loopPass]
        [Btn.Ev.tick, Btn.Ev.loopPass]).1 (by decide)).2,
    (button_press_release_semantics [Btn.Ev.tick, Btn.Ev.tick, Btn.Ev.loopPass]
        [Btn.Ev.tick, Btn.Ev.loopPass]).2.2.1⟩

end MtbUni4
